import Mathlib

/-!
Shallow embedding of the `wasm-sockets` crate (src/lib.rs): the connection
lifecycle state machine, the callback-slot dispatch mechanism of
`EventClient`, the inbound-payload classification of the `onmessage`
callback, and the message-buffering `PollingClient` adapter.

Handlers are modelled as abstract identifiers of a type `H`; processing a
transport event returns the new client state together with the list of
handler identifiers invoked during that event (empty when the slot holds
`none`).  The host WebSocket primitive is external to the crate: its
construction outcome and its readiness-dependent `send` are parameters of
the embedding, following the collaborator contract the crate relies on.
-/

set_option autoImplicit false

namespace WasmSockets

/-- Rust `ConnectionStatus` from src/lib.rs lines 99-109. -/
inductive ConnectionStatus where
  /-- Connecting to a server -/
  | Connecting
  /-- Connected to a server -/
  | Connected
  /-- Disconnected from a server due to an error -/
  | Error
  /-- Disconnected from a server without an error -/
  | Disconnected
deriving DecidableEq, Repr

/-- Rust `Message` from src/lib.rs lines 112-118; `Vec<u8>` is embedded as a list
of byte values. -/
inductive Message where
  | Text (s : String)
  | Binary (b : List Nat)
deriving DecidableEq, Repr

/-- The shapes an inbound `MessageEvent.data()` payload can take, as
distinguished by the chain of `dyn_into` casts in the `onmessage` callback
(src/lib.rs lines 312-347): an `ArrayBuffer`, a `Blob`, a `JsString`, or
anything else. -/
inductive JsData where
  | arrayBuffer (b : List Nat)
  | blob (b : List Nat)
  | jsString (s : String)
  | other
deriving DecidableEq, Repr

/-- Outcome of classifying one inbound payload in the `onmessage` callback:
an immediate dispatch of a classified `Message`, a deferred binary dispatch
(the `Blob` branch starts an asynchronous `FileReader` read and dispatches
from its `onloadend` callback), or a fatal error (the `else` branch runs
`panic!`, aborting the process). -/
inductive ClassifyResult where
  | dispatch (m : Message)
  | deferredBinary (b : List Nat)
  | fatal
deriving DecidableEq, Repr

/-- Classification performed by the `onmessage` callback (src/lib.rs lines
312-347): `ArrayBuffer` data becomes `Message::Binary` of its bytes, `Blob`
data is handed to a `FileReader` for asynchronous materialization,
`JsString` data becomes `Message::Text`, and unknown data panics. -/
def classifyMessageData : JsData → ClassifyResult
  | JsData.arrayBuffer b => ClassifyResult.dispatch (Message.Binary b)
  | JsData.blob b => ClassifyResult.deferredBinary b
  | JsData.jsString s => ClassifyResult.dispatch (Message.Text s)
  | JsData.other => ClassifyResult.fatal

/-- Body of the `onloadend` callback created in the `Blob` branch
(src/lib.rs lines 330-335): the materialized bytes are dispatched as
`Message::Binary`. -/
def blobOnLoadEnd (b : List Nat) : Message :=
  Message.Binary b

/-- The classified message of a payload that does not need asynchronous
materialization: `some` for `ArrayBuffer` and `JsString` payloads, `none`
for `Blob` and unknown payloads. -/
def directMessage : JsData → Option Message
  | JsData.arrayBuffer b => some (Message.Binary b)
  | JsData.jsString s => some (Message.Text s)
  | JsData.blob _ => none
  | JsData.other => none

/-- The four transport notifications delivered by the host to the handlers
installed in `EventClient::new`, plus the host-scheduled completion of an
asynchronous blob read (`FileReader` `onloadend`). -/
inductive TransportEvent where
  | opened
  | errored
  | closed
  | message (d : JsData)
  | blobLoaded (b : List Nat)
deriving DecidableEq, Repr

/-- The mutable state of an `EventClient` (src/lib.rs lines 210-226): the
connection status cell and the four optional callback slots, with handlers
abstracted to identifiers of type `H`.  The `url` and raw connection fields
carry no lifecycle state and are omitted. -/
structure EventClientState (H : Type) where
  status : ConnectionStatus
  on_error : Option H
  on_connection : Option H
  on_message : Option H
  on_close : Option H
deriving DecidableEq, Repr

namespace EventClient

variable {H : Type}

/-- State of a freshly constructed `EventClient` (src/lib.rs lines 247-296):
status starts at `Connecting` and every callback slot starts at `None`. -/
def init (H : Type) : EventClientState H :=
  { status := ConnectionStatus.Connecting
    on_error := none
    on_connection := none
    on_message := none
    on_close := none }

/-- Rust `set_on_error` (src/lib.rs lines 375-377): overwrite the slot. -/
def set_on_error (s : EventClientState H) (f : Option H) : EventClientState H :=
  { s with on_error := f }

/-- Rust `set_on_connection` (src/lib.rs lines 387-389): overwrite the slot. -/
def set_on_connection (s : EventClientState H) (f : Option H) : EventClientState H :=
  { s with on_connection := f }

/-- Rust `set_on_message` (src/lib.rs lines 401-403): overwrite the slot. -/
def set_on_message (s : EventClientState H) (f : Option H) : EventClientState H :=
  { s with on_message := f }

/-- Rust `set_on_close` (src/lib.rs lines 413-415): overwrite the slot. -/
def set_on_close (s : EventClientState H) (f : Option H) : EventClientState H :=
  { s with on_close := f }

/-- The `onerror_callback` installed in `EventClient::new` (src/lib.rs lines
254-259): set status to `Error`, then invoke the `on_error` slot if set.
Returns the new state and the handlers invoked. -/
def handleError (s : EventClientState H) : EventClientState H × List H :=
  ({ s with status := ConnectionStatus.Error }, s.on_error.toList)

/-- The `onclose_callback` installed in `EventClient::new` (src/lib.rs lines
267-272): set status to `Disconnected` (unconditionally), then invoke the
`on_close` slot if set. -/
def handleClose (s : EventClientState H) : EventClientState H × List H :=
  ({ s with status := ConnectionStatus.Disconnected }, s.on_close.toList)

/-- The `onopen_callback` installed in `EventClient::new` (src/lib.rs lines
299-304): set status to `Connected`, then invoke the `on_connection` slot if
set. -/
def handleOpen (s : EventClientState H) : EventClientState H × List H :=
  ({ s with status := ConnectionStatus.Connected }, s.on_connection.toList)

/-- The `onmessage_callback` installed in `EventClient::new` (src/lib.rs
lines 312-347): classify the payload; on an immediate classification invoke
the `on_message` slot, on a blob start the asynchronous read (no dispatch
yet), and on unknown data panic — embedded as `none`. -/
def onMessageEvent (s : EventClientState H) (d : JsData) :
    Option (EventClientState H × List H) :=
  match classifyMessageData d with
  | ClassifyResult.dispatch _ => some (s, s.on_message.toList)
  | ClassifyResult.deferredBinary _ => some (s, [])
  | ClassifyResult.fatal => none

/-- The `onloadend` callback of a blob read (src/lib.rs lines 330-335):
dispatch the materialized binary message to the `on_message` slot if set. -/
def handleBlobLoaded (s : EventClientState H) (_b : List Nat) :
    EventClientState H × List H :=
  (s, s.on_message.toList)

end EventClient

/-- Rust `WebSocketError` from src/lib.rs lines 203-207. -/
inductive WebSocketError where
  | ConnectionCreationError (msg : String)
deriving DecidableEq, Repr

/-- Readiness states of the host WebSocket primitive, on which its `send`
methods depend.  The primitive itself is an external collaborator of the
crate. -/
inductive ReadyState where
  | CONNECTING
  | OPEN
  | CLOSING
  | CLOSED
deriving DecidableEq, Repr

/-- Modelled from the spec: the host `send` primitive (`web_sys`
`WebSocket::send_with_str` / `send_with_u8_array`, not part of this
repository) returns `Ok(())` when the socket is open and a `JsValue` error
otherwise — the crate forwards this result unchanged. -/
def transportSend (rs : ReadyState) : Except String Unit :=
  if rs = ReadyState.OPEN then Except.ok () else Except.error "InvalidStateError"

namespace EventClient

variable {H : Type}

/-- Rust `EventClient::new` (src/lib.rs lines 236-365): the host constructor
outcome `wsResult` is an input (the `WebSocket::new(url)` call is external);
on failure return `ConnectionCreationError("Failed to connect")`, on success
return the freshly initialized client state. -/
def new (H : Type) (wsResult : Except String Unit) :
    Except WebSocketError (EventClientState H) :=
  match wsResult with
  | Except.error _ =>
      Except.error (WebSocketError.ConnectionCreationError "Failed to connect")
  | Except.ok _ => Except.ok (init H)

/-- Rust `EventClient::send_string` (src/lib.rs lines 421-423): forward to the
transport `send`; the client state is untouched. -/
def send_string (rs : ReadyState) (s : EventClientState H) (_msg : String) :
    Except String Unit × EventClientState H :=
  (transportSend rs, s)

/-- Rust `EventClient::send_binary` (src/lib.rs lines 428-432): forward to the
transport `send`; the client state is untouched. -/
def send_binary (rs : ReadyState) (s : EventClientState H) (_msg : List Nat) :
    Except String Unit × EventClientState H :=
  (transportSend rs, s)

/-- User-visible operations on an `EventClient`: the four `set_on_*`
methods, the two sends, and the transport-driven events. -/
inductive Op (H : Type) where
  | setOnError (f : Option H)
  | setOnConnection (f : Option H)
  | setOnMessage (f : Option H)
  | setOnClose (f : Option H)
  | sendString (rs : ReadyState) (msg : String)
  | sendBinary (rs : ReadyState) (msg : List Nat)
  | ev (e : TransportEvent)

/-- One step of an `EventClient`'s lifecycle: apply an operation or process
a transport event, returning the new state and the handlers invoked
(`none` embeds the panic on an unknown payload). -/
def step (s : EventClientState H) : Op H → Option (EventClientState H × List H)
  | Op.setOnError f => some (set_on_error s f, [])
  | Op.setOnConnection f => some (set_on_connection s f, [])
  | Op.setOnMessage f => some (set_on_message s f, [])
  | Op.setOnClose f => some (set_on_close s f, [])
  | Op.sendString rs msg => some ((send_string rs s msg).2, [])
  | Op.sendBinary rs msg => some ((send_binary rs s msg).2, [])
  | Op.ev TransportEvent.opened => some (handleOpen s)
  | Op.ev TransportEvent.errored => some (handleError s)
  | Op.ev TransportEvent.closed => some (handleClose s)
  | Op.ev (TransportEvent.message d) => onMessageEvent s d
  | Op.ev (TransportEvent.blobLoaded b) => some (handleBlobLoaded s b)

end EventClient

/-- The mutable state of a `PollingClient` (src/lib.rs lines 119-127): its
own status cell (`status`, a second `Rc<RefCell<_>>` created at line 141,
distinct from the inner client's cell), the inner `EventClient`'s status
cell (`innerStatus`), and the message buffer `data`.  After
`PollingClient::new` the inner client's four handler slots hold the
polling client's internal handlers, so they are fused into the step
function below rather than stored. -/
structure PollingClientState where
  url : String
  innerStatus : ConnectionStatus
  pollStatus : ConnectionStatus
  data : List Message
deriving DecidableEq, Repr

namespace PollingClient

/-- The state `PollingClient::new url` returns on success (src/lib.rs lines
136-170): both status cells start at `Connecting` and the buffer is
empty. -/
def init (url : String) : PollingClientState :=
  { url := url
    innerStatus := ConnectionStatus.Connecting
    pollStatus := ConnectionStatus.Connecting
    data := [] }

/-- Rust `PollingClient::new` (src/lib.rs lines 136-170): construct the inner
`EventClient` (propagating its construction error) and install the four
internal handlers. -/
def new (url : String) (wsResult : Except String Unit) :
    Except WebSocketError PollingClientState :=
  match wsResult with
  | Except.error _ =>
      Except.error (WebSocketError.ConnectionCreationError "Failed to connect")
  | Except.ok _ => Except.ok (init url)

/-- Body of the internal `on_message` handler (src/lib.rs lines 160-162):
push the message onto the buffer. -/
def pushMessage (s : PollingClientState) (m : Message) : PollingClientState :=
  { s with data := s.data ++ [m] }

/-- One transport event processed by a `PollingClient`: the inner
`EventClient` callback updates the inner status cell, then the internal
handler installed by `PollingClient::new` (src/lib.rs lines 144-162)
updates the polling client's own cell or buffer.  `none` embeds the panic
on an unknown payload. -/
def step (s : PollingClientState) : TransportEvent → Option PollingClientState
  | TransportEvent.opened =>
      some { s with innerStatus := ConnectionStatus.Connected
                    pollStatus := ConnectionStatus.Connected }
  | TransportEvent.errored =>
      some { s with innerStatus := ConnectionStatus.Error
                    pollStatus := ConnectionStatus.Error }
  | TransportEvent.closed =>
      some { s with innerStatus := ConnectionStatus.Disconnected
                    pollStatus := ConnectionStatus.Disconnected }
  | TransportEvent.message d =>
      match classifyMessageData d with
      | ClassifyResult.dispatch m => some (pushMessage s m)
      | ClassifyResult.deferredBinary _ => some s
      | ClassifyResult.fatal => none
  | TransportEvent.blobLoaded b => some (pushMessage s (blobOnLoadEnd b))

/-- Process a list of transport events in order. -/
def run (s : PollingClientState) : List TransportEvent → Option PollingClientState
  | [] => some s
  | e :: es =>
      match step s e with
      | some s' => run s' es
      | none => none

/-- Rust `PollingClient::receive` (src/lib.rs lines 175-179): clone the buffer,
clear it, and return the clone. -/
def receive (s : PollingClientState) : List Message × PollingClientState :=
  (s.data, { s with data := [] })

/-- Rust `PollingClient::status` (src/lib.rs lines 184-186): clone of the polling
client's own status cell. -/
def status (s : PollingClientState) : ConnectionStatus :=
  s.pollStatus

/-- Rust `PollingClient::send_string` (src/lib.rs lines 191-193): delegate to the
inner `EventClient`; the polling state is untouched. -/
def send_string (rs : ReadyState) (s : PollingClientState) (_msg : String) :
    Except String Unit × PollingClientState :=
  (transportSend rs, s)

/-- Rust `PollingClient::send_binary` (src/lib.rs lines 198-200): delegate to the
inner `EventClient`; the polling state is untouched. -/
def send_binary (rs : ReadyState) (s : PollingClientState) (_msg : List Nat) :
    Except String Unit × PollingClientState :=
  (transportSend rs, s)

end PollingClient

end WasmSockets

/-! ## Helper lemmas -/

namespace WasmSockets

/-- Folding the internal `on_message` handler over a list of messages appends
them to the buffer in order. -/
theorem pushMessage_foldl_data (ms : List Message) (t : PollingClientState) :
    (ms.foldl PollingClient.pushMessage t).data = t.data ++ ms := by
  induction ms generalizing t with
  | nil => simp
  | cons m ms ih => simp [PollingClient.pushMessage, ih]

/-- Running a list of message events whose payloads all classify immediately
appends the classified messages to the buffer in delivery order and leaves
the rest of the state unchanged. -/
theorem run_direct_messages (ds : List JsData) (s : PollingClientState)
    (h : ∀ d ∈ ds, (directMessage d).isSome) :
    PollingClient.run s (ds.map TransportEvent.message)
      = some { s with data := s.data ++ ds.filterMap directMessage } := by
  induction ds generalizing s with
  | nil => simp [PollingClient.run]
  | cons d ds ih =>
    have hd : (directMessage d).isSome := h d (List.mem_cons_self d ds)
    have hds : ∀ d' ∈ ds, (directMessage d').isSome :=
      fun d' hmem => h d' (List.mem_cons_of_mem d hmem)
    cases d with
    | arrayBuffer b =>
      simp only [List.map, PollingClient.run, PollingClient.step,
        classifyMessageData, ih _ hds, PollingClient.pushMessage,
        directMessage, List.filterMap]
      simp
    | jsString t =>
      simp only [List.map, PollingClient.run, PollingClient.step,
        classifyMessageData, ih _ hds, PollingClient.pushMessage,
        directMessage, List.filterMap]
      simp
    | blob b => simp [directMessage] at hd
    | other => simp [directMessage] at hd

/-- One polling-client step preserves agreement between the polling client's
own status cell and the inner client's status cell. -/
theorem step_preserves_mirror (s s' : PollingClientState) (e : TransportEvent)
    (hstep : PollingClient.step s e = some s')
    (h : s.pollStatus = s.innerStatus) : s'.pollStatus = s'.innerStatus := by
  cases e with
  | opened => simp [PollingClient.step] at hstep; subst hstep; rfl
  | errored => simp [PollingClient.step] at hstep; subst hstep; rfl
  | closed => simp [PollingClient.step] at hstep; subst hstep; rfl
  | message d =>
    cases d <;> simp [PollingClient.step, classifyMessageData] at hstep <;>
      subst hstep <;> simpa [PollingClient.pushMessage] using h
  | blobLoaded b =>
    simp [PollingClient.step] at hstep; subst hstep
    simpa [PollingClient.pushMessage] using h

/-- Agreement between the two status cells is an invariant of every event
sequence. -/
theorem run_preserves_mirror (es : List TransportEvent)
    (s s' : PollingClientState) (hrun : PollingClient.run s es = some s')
    (h : s.pollStatus = s.innerStatus) : s'.pollStatus = s'.innerStatus := by
  induction es generalizing s with
  | nil => simp [PollingClient.run] at hrun; subst hrun; exact h
  | cons e es ih =>
    simp only [PollingClient.run] at hrun
    cases hstep : PollingClient.step s e with
    | none => rw [hstep] at hrun; cases hrun
    | some s1 =>
      rw [hstep] at hrun
      exact ih s1 hrun (step_preserves_mirror s s1 e hstep h)

/-! ## Claims -/

/-- C1, counterexample: the claim says that once status is `Error`, a
subsequent close notification leaves it at `Error`.  On the code it is
false: the `onclose` callback of `EventClient::new` and the internal
`on_close` handler of `PollingClient::new` set `Disconnected`
unconditionally, so error followed by close ends at `Disconnected`, not
`Error`, for both clients. -/
theorem C1_error_then_close_counterexample :
    (EventClient.handleError (EventClient.init Unit)).1.status
      = ConnectionStatus.Error
  ∧ (EventClient.handleClose
        (EventClient.handleError (EventClient.init Unit)).1).1.status
      = ConnectionStatus.Disconnected
  ∧ ¬ (EventClient.handleClose
        (EventClient.handleError (EventClient.init Unit)).1).1.status
      = ConnectionStatus.Error
  ∧ PollingClient.run (PollingClient.init "ws://a")
        [TransportEvent.errored, TransportEvent.closed]
      = some { url := "ws://a", innerStatus := ConnectionStatus.Disconnected
               pollStatus := ConnectionStatus.Disconnected, data := [] } := by
  refine ⟨rfl, rfl, ?_, rfl⟩
  decide

/-- C1, amended: processing a close notification always sets the status to
`Disconnected`, for every prior status — in particular a prior `Error` is
overwritten by a subsequent close, in both the `EventClient` `onclose`
callback and the `PollingClient` internal `on_close` handler. -/
theorem C1_close_always_disconnects {H : Type} (s : EventClientState H)
    (ps : PollingClientState) :
    (EventClient.handleClose s).1.status = ConnectionStatus.Disconnected
  ∧ PollingClient.step ps TransportEvent.closed
      = some { ps with innerStatus := ConnectionStatus.Disconnected
                       pollStatus := ConnectionStatus.Disconnected } :=
  ⟨rfl, rfl⟩

/-- C2: `receive` returns exactly the messages accumulated since the
previous call (the current buffer, which is what the internal `on_message`
handler pushed since the last drain), leaves the buffer empty, does not
touch the status, never fails (it is a total function into a message list),
a second call with no intervening message events returns the empty
sequence, and the first call on a freshly constructed client returns the
empty sequence. -/
theorem C2_receive_drains_buffer (s : PollingClientState) (url : String)
    (ms : List Message) :
    (PollingClient.receive s).1 = s.data
  ∧ (PollingClient.receive s).2.data = []
  ∧ (PollingClient.receive (PollingClient.receive s).2).1 = []
  ∧ (PollingClient.receive s).2.pollStatus = s.pollStatus
  ∧ (PollingClient.receive (PollingClient.init url)).1 = []
  ∧ (PollingClient.receive
        (ms.foldl PollingClient.pushMessage (PollingClient.receive s).2)).1
      = ms := by
  refine ⟨rfl, rfl, rfl, rfl, rfl, ?_⟩
  simp [PollingClient.receive, pushMessage_foldl_data]

/-- C3: for each of the four event kinds, registering a handler overwrites
the previous one, so that processing a subsequent event invokes exactly the
latest registered handler; setting a slot to `none` makes processing invoke
nothing; and event processing never changes the slots, so a disabled
handler stays disabled across further events. -/
theorem C3_handler_replacement {H : Type} (s : EventClientState H)
    (f1 f2 : Option H) :
    (EventClient.handleError
        (EventClient.set_on_error (EventClient.set_on_error s f1) f2)).2
      = f2.toList
  ∧ (EventClient.handleOpen
        (EventClient.set_on_connection
          (EventClient.set_on_connection s f1) f2)).2
      = f2.toList
  ∧ (EventClient.handleClose
        (EventClient.set_on_close (EventClient.set_on_close s f1) f2)).2
      = f2.toList
  ∧ (∀ t : String,
      EventClient.onMessageEvent
          (EventClient.set_on_message (EventClient.set_on_message s f1) f2)
          (JsData.jsString t)
        = some
            (EventClient.set_on_message (EventClient.set_on_message s f1) f2,
             f2.toList))
  ∧ (EventClient.handleBlobLoaded
        (EventClient.set_on_message (EventClient.set_on_message s f1) f2)
        []).2
      = f2.toList
  ∧ (EventClient.handleError (EventClient.set_on_error s none)).2 = []
  ∧ (EventClient.handleOpen (EventClient.set_on_connection s none)).2 = []
  ∧ (EventClient.handleClose (EventClient.set_on_close s none)).2 = []
  ∧ (∀ d : JsData,
      ((EventClient.onMessageEvent (EventClient.set_on_message s none) d).map
          Prod.snd).getD []
        = [])
  ∧ (∀ b : List Nat,
      (EventClient.handleBlobLoaded
          (EventClient.set_on_message s none) b).2
        = [])
  ∧ (EventClient.handleError s).1.on_error = s.on_error
  ∧ (EventClient.handleError s).1.on_connection = s.on_connection
  ∧ (EventClient.handleError s).1.on_message = s.on_message
  ∧ (EventClient.handleError s).1.on_close = s.on_close
  ∧ (EventClient.handleOpen s).1.on_error = s.on_error
  ∧ (EventClient.handleOpen s).1.on_connection = s.on_connection
  ∧ (EventClient.handleOpen s).1.on_message = s.on_message
  ∧ (EventClient.handleOpen s).1.on_close = s.on_close
  ∧ (EventClient.handleClose s).1.on_error = s.on_error
  ∧ (EventClient.handleClose s).1.on_connection = s.on_connection
  ∧ (EventClient.handleClose s).1.on_message = s.on_message
  ∧ (EventClient.handleClose s).1.on_close = s.on_close
  ∧ (∀ d : JsData,
      ((EventClient.onMessageEvent s d).map Prod.fst).getD s = s)
  ∧ (∀ b : List Nat, (EventClient.handleBlobLoaded s b).1 = s) := by
  refine ⟨rfl, rfl, rfl, fun t => rfl, rfl, rfl, rfl, rfl, ?_, fun b => rfl,
    rfl, rfl, rfl, rfl, rfl, rfl, rfl, rfl, rfl, rfl, rfl, rfl, ?_,
    fun b => rfl⟩
  · intro d; cases d <;> rfl
  · intro d; cases d <;> rfl

/-- C4: the `onmessage` callback classifies every inbound payload into
exactly one outcome — an `ArrayBuffer` dispatches `Message::Binary` of its
bytes, a `Blob` defers to an asynchronous read whose `onloadend` callback
materializes `Message::Binary` of the read bytes, a `JsString` dispatches
`Message::Text` — and any other payload shape is fatal: the callback
panics (embedded as `none`) instead of dispatching or reporting a
recoverable error. -/
theorem C4_payload_classification (b : List Nat) (t : String) :
    classifyMessageData (JsData.arrayBuffer b)
      = ClassifyResult.dispatch (Message.Binary b)
  ∧ classifyMessageData (JsData.blob b) = ClassifyResult.deferredBinary b
  ∧ blobOnLoadEnd b = Message.Binary b
  ∧ classifyMessageData (JsData.jsString t)
      = ClassifyResult.dispatch (Message.Text t)
  ∧ classifyMessageData JsData.other = ClassifyResult.fatal
  ∧ (∀ m : Message, ClassifyResult.fatal ≠ ClassifyResult.dispatch m)
  ∧ (∀ (H : Type) (s : EventClientState H),
      EventClient.onMessageEvent s JsData.other = none) :=
  ⟨rfl, rfl, rfl, rfl, rfl, fun _ h => ClassifyResult.noConfusion h,
   fun _ _ => rfl⟩

/-- C5: construction of either client fails exactly when the host transport
constructor fails, in which case the typed error
`ConnectionCreationError("Failed to connect")` is returned (no panic: both
constructors are total functions into `Except`); a successful construction
has status `Connecting`, not `Connected` — the connection outcome is
signaled later, by the `onopen` callback moving the status to `Connected`
or the `onerror` callback moving it to `Error`. -/
theorem C5_construction_errors (H : Type) (url : String)
    (wsResult : Except String Unit) :
    ((∃ e, EventClient.new H wsResult = Except.error e)
      ↔ (∃ e, wsResult = Except.error e))
  ∧ ((∃ e, PollingClient.new url wsResult = Except.error e)
      ↔ (∃ e, wsResult = Except.error e))
  ∧ (∀ c, EventClient.new H wsResult = Except.ok c →
        c.status = ConnectionStatus.Connecting
      ∧ c.status ≠ ConnectionStatus.Connected
      ∧ (EventClient.handleOpen c).1.status = ConnectionStatus.Connected
      ∧ (EventClient.handleError c).1.status = ConnectionStatus.Error)
  ∧ (∀ c, PollingClient.new url wsResult = Except.ok c →
        PollingClient.status c = ConnectionStatus.Connecting
      ∧ c.innerStatus = ConnectionStatus.Connecting)
  ∧ (∀ err, EventClient.new H wsResult = Except.error err →
        err = WebSocketError.ConnectionCreationError "Failed to connect")
  ∧ (∀ err, PollingClient.new url wsResult = Except.error err →
        err = WebSocketError.ConnectionCreationError "Failed to connect") := by
  cases wsResult with
  | ok u =>
    refine ⟨?_, ?_, ?_, ?_, ?_, ?_⟩ <;>
      simp [EventClient.new, PollingClient.new, EventClient.init,
        PollingClient.init, PollingClient.status, EventClient.handleOpen,
        EventClient.handleError]
  | error e =>
    refine ⟨?_, ?_, ?_, ?_, ?_, ?_⟩ <;>
      simp [EventClient.new, PollingClient.new]

/-- C5 witness: at the concrete inputs `Except.ok ()` and
`Except.error "refused"`, construction succeeds with status `Connecting`
and fails with the typed error, respectively. -/
theorem C5_construction_errors_witness :
    ((EventClient.new Unit (Except.ok ())).isOk = true)
  ∧ (EventClient.init Unit).status = ConnectionStatus.Connecting
  ∧ PollingClient.status (PollingClient.init "ws://a")
      = ConnectionStatus.Connecting
  ∧ WebSocketError.ConnectionCreationError "Failed to connect"
      = WebSocketError.ConnectionCreationError "Failed to connect" :=
  ⟨rfl,
   ((C5_construction_errors Unit "ws://a" (Except.ok ())).2.2.1
      (EventClient.init Unit) rfl).1,
   ((C5_construction_errors Unit "ws://a" (Except.ok ())).2.2.2.1
      (PollingClient.init "ws://a") rfl).1,
   ((C5_construction_errors Unit "ws://a" (Except.error "refused")).2.2.2.2.1
      (WebSocketError.ConnectionCreationError "Failed to connect") rfl) ▸ rfl⟩

/-- C6: for every readiness state in which the transport is not open (in
particular before the open notification fires), `send_string` and
`send_binary` on either client return the transport's send error (no
panic: they are total functions into `Except`), and the client state —
including the connection status — is returned unchanged. -/
theorem C6_send_before_open {H : Type} (rs : ReadyState)
    (h : rs ≠ ReadyState.OPEN) (s : EventClientState H)
    (ps : PollingClientState) (msg : String) (b : List Nat) :
    (∃ e, (EventClient.send_string rs s msg).1 = Except.error e)
  ∧ (EventClient.send_string rs s msg).2 = s
  ∧ (EventClient.send_string rs s msg).2.status = s.status
  ∧ (∃ e, (EventClient.send_binary rs s b).1 = Except.error e)
  ∧ (EventClient.send_binary rs s b).2 = s
  ∧ (∃ e, (PollingClient.send_string rs ps msg).1 = Except.error e)
  ∧ (PollingClient.send_string rs ps msg).2 = ps
  ∧ (PollingClient.send_string rs ps msg).2.pollStatus = ps.pollStatus
  ∧ (∃ e, (PollingClient.send_binary rs ps b).1 = Except.error e)
  ∧ (PollingClient.send_binary rs ps b).2 = ps := by
  refine ⟨⟨"InvalidStateError", ?_⟩, rfl, rfl, ⟨"InvalidStateError", ?_⟩, rfl,
    ⟨"InvalidStateError", ?_⟩, rfl, rfl, ⟨"InvalidStateError", ?_⟩, rfl⟩ <;>
    simp [EventClient.send_string, EventClient.send_binary,
      PollingClient.send_string, PollingClient.send_binary, transportSend, h]

/-- C6 witness: a send attempted on a still-connecting transport from a
freshly constructed client fails and leaves the state unchanged. -/
theorem C6_send_before_open_witness :
    ReadyState.CONNECTING ≠ ReadyState.OPEN
  ∧ (∃ e, (EventClient.send_string ReadyState.CONNECTING
        (EventClient.init Unit) "hi").1 = Except.error e)
  ∧ (PollingClient.send_string ReadyState.CONNECTING
        (PollingClient.init "ws://a") "hi").2 = PollingClient.init "ws://a" :=
  ⟨by decide,
   (C6_send_before_open ReadyState.CONNECTING (by decide)
      (EventClient.init Unit) (PollingClient.init "ws://a") "hi" [0]).1,
   (C6_send_before_open ReadyState.CONNECTING (by decide)
      (EventClient.init Unit) (PollingClient.init "ws://a") "hi"
      [0]).2.2.2.2.2.2.1⟩

/-- C7: for every sequence of message events whose payloads classify
without asynchronous materialization, running them appends the classified
messages to the buffer in exactly the transport's delivery order, and the
next `receive` returns the prior buffer followed by those messages in that
order. -/
theorem C7_receive_fifo (s : PollingClientState) (ds : List JsData)
    (h : ∀ d ∈ ds, (directMessage d).isSome) :
    PollingClient.run s (ds.map TransportEvent.message)
      = some { s with data := s.data ++ ds.filterMap directMessage }
  ∧ (∀ s', PollingClient.run s (ds.map TransportEvent.message) = some s' →
      (PollingClient.receive s').1 = s.data ++ ds.filterMap directMessage) := by
  refine ⟨run_direct_messages ds s h, fun s' hs' => ?_⟩
  rw [run_direct_messages ds s h] at hs'
  cases hs'
  rfl

/-- C7 witness: delivering a text payload and then an array-buffer payload
to a fresh client buffers `Text` then `Binary`, in that order. -/
theorem C7_receive_fifo_witness :
    (∀ d ∈ [JsData.jsString "a", JsData.arrayBuffer [1, 2]],
      (directMessage d).isSome)
  ∧ PollingClient.run (PollingClient.init "ws://a")
        ([JsData.jsString "a", JsData.arrayBuffer [1, 2]].map
          TransportEvent.message)
      = some { PollingClient.init "ws://a" with
               data := (PollingClient.init "ws://a").data
                 ++ [JsData.jsString "a",
                     JsData.arrayBuffer [1, 2]].filterMap directMessage } :=
  ⟨by decide,
   (C7_receive_fifo (PollingClient.init "ws://a")
      [JsData.jsString "a", JsData.arrayBuffer [1, 2]] (by decide)).1⟩

/-- C8: both clients start with every status cell at `Connecting`, and no
step — transport event, handler registration, send, or `receive` — ever
writes `Connecting` into a status cell: if the status is `Connecting` after
a step, it already was before it. -/
theorem C8_never_back_to_connecting (H : Type) (url : String) :
    (EventClient.init H).status = ConnectionStatus.Connecting
  ∧ (PollingClient.init url).pollStatus = ConnectionStatus.Connecting
  ∧ (PollingClient.init url).innerStatus = ConnectionStatus.Connecting
  ∧ (∀ (s : EventClientState H) (op : EventClient.Op H) s' l,
      EventClient.step s op = some (s', l) →
      s'.status = ConnectionStatus.Connecting →
      s.status = ConnectionStatus.Connecting)
  ∧ (∀ (ps : PollingClientState) (e : TransportEvent) ps',
      PollingClient.step ps e = some ps' →
        (ps'.pollStatus = ConnectionStatus.Connecting →
          ps.pollStatus = ConnectionStatus.Connecting)
      ∧ (ps'.innerStatus = ConnectionStatus.Connecting →
          ps.innerStatus = ConnectionStatus.Connecting))
  ∧ (∀ ps : PollingClientState,
      (PollingClient.receive ps).2.pollStatus = ps.pollStatus
    ∧ (PollingClient.receive ps).2.innerStatus = ps.innerStatus) := by
  refine ⟨rfl, rfl, rfl, ?_, ?_, fun ps => ⟨rfl, rfl⟩⟩
  · intro s op s' l hstep
    cases op with
    | setOnError f =>
      simp [EventClient.step, EventClient.set_on_error] at hstep
      rw [← hstep.1]; exact id
    | setOnConnection f =>
      simp [EventClient.step, EventClient.set_on_connection] at hstep
      rw [← hstep.1]; exact id
    | setOnMessage f =>
      simp [EventClient.step, EventClient.set_on_message] at hstep
      rw [← hstep.1]; exact id
    | setOnClose f =>
      simp [EventClient.step, EventClient.set_on_close] at hstep
      rw [← hstep.1]; exact id
    | sendString rs msg =>
      simp [EventClient.step, EventClient.send_string] at hstep
      rw [← hstep.1]; exact id
    | sendBinary rs msg =>
      simp [EventClient.step, EventClient.send_binary] at hstep
      rw [← hstep.1]; exact id
    | ev e =>
      cases e with
      | opened =>
        simp [EventClient.step, EventClient.handleOpen] at hstep
        rw [← hstep.1]; intro hc; cases hc
      | errored =>
        simp [EventClient.step, EventClient.handleError] at hstep
        rw [← hstep.1]; intro hc; cases hc
      | closed =>
        simp [EventClient.step, EventClient.handleClose] at hstep
        rw [← hstep.1]; intro hc; cases hc
      | message d =>
        cases d <;>
          simp [EventClient.step, EventClient.onMessageEvent,
            classifyMessageData] at hstep <;>
          (rw [← hstep.1]; exact id)
      | blobLoaded b =>
        simp [EventClient.step, EventClient.handleBlobLoaded] at hstep
        rw [← hstep.1]; exact id
  · intro ps e ps' hstep
    cases e with
    | opened =>
      simp [PollingClient.step] at hstep
      subst hstep; exact ⟨(fun hc => nomatch hc), (fun hc => nomatch hc)⟩
    | errored =>
      simp [PollingClient.step] at hstep
      subst hstep; exact ⟨(fun hc => nomatch hc), (fun hc => nomatch hc)⟩
    | closed =>
      simp [PollingClient.step] at hstep
      subst hstep; exact ⟨(fun hc => nomatch hc), (fun hc => nomatch hc)⟩
    | message d =>
      cases d <;>
        simp [PollingClient.step, classifyMessageData,
          PollingClient.pushMessage] at hstep <;>
        (subst hstep; exact ⟨id, id⟩)
    | blobLoaded b =>
      simp [PollingClient.step, PollingClient.pushMessage] at hstep
      subst hstep; exact ⟨id, id⟩

/-- C8 witness: the invariant applied at concrete steps — a handler
registration step on a fresh `EventClient` and a deferred-blob message
event on a fresh `PollingClient` both keep the status at `Connecting`, and
`receive` keeps it as well. -/
theorem C8_never_back_to_connecting_witness :
    (EventClient.init Unit).status = ConnectionStatus.Connecting
  ∧ (PollingClient.init "ws://a").pollStatus = ConnectionStatus.Connecting
  ∧ (PollingClient.receive (PollingClient.init "ws://a")).2.pollStatus
      = ConnectionStatus.Connecting :=
  ⟨(C8_never_back_to_connecting Unit "ws://a").2.2.2.1
      (EventClient.init Unit) (EventClient.Op.setOnError none)
      (EventClient.init Unit) [] rfl rfl,
   ((C8_never_back_to_connecting Unit "ws://a").2.2.2.2.1
      (PollingClient.init "ws://a")
      (TransportEvent.message (JsData.blob []))
      (PollingClient.init "ws://a") rfl).1 rfl,
   ((C8_never_back_to_connecting Unit "ws://a").2.2.2.2.2
      (PollingClient.init "ws://a")).1⟩

/-- C9: for a fresh polling client whose transport signals open, delivers
the text message "hello", then signals close, the observed statuses are
`Connecting`, then `Connected` (still `Connected` after the message), then
`Disconnected`; `receive` after the close returns exactly
`[Text "hello"]`, and a second `receive` returns the empty sequence. -/
theorem C9_open_hello_close_scenario :
    PollingClient.status (PollingClient.init "ws://test")
      = ConnectionStatus.Connecting
  ∧ (PollingClient.run (PollingClient.init "ws://test")
        [TransportEvent.opened]).map PollingClient.status
      = some ConnectionStatus.Connected
  ∧ (PollingClient.run (PollingClient.init "ws://test")
        [TransportEvent.opened,
         TransportEvent.message (JsData.jsString "hello")]).map
        PollingClient.status
      = some ConnectionStatus.Connected
  ∧ (PollingClient.run (PollingClient.init "ws://test")
        [TransportEvent.opened,
         TransportEvent.message (JsData.jsString "hello"),
         TransportEvent.closed]).map PollingClient.status
      = some ConnectionStatus.Disconnected
  ∧ (PollingClient.run (PollingClient.init "ws://test")
        [TransportEvent.opened,
         TransportEvent.message (JsData.jsString "hello"),
         TransportEvent.closed]).map (fun s => (PollingClient.receive s).1)
      = some [Message.Text "hello"]
  ∧ (PollingClient.run (PollingClient.init "ws://test")
        [TransportEvent.opened,
         TransportEvent.message (JsData.jsString "hello"),
         TransportEvent.closed]).map
        (fun s => (PollingClient.receive (PollingClient.receive s).2).1)
      = some [] :=
  ⟨rfl, rfl, rfl, rfl, rfl, rfl⟩

/-- C10: the polling client's own status cell and the inner event client's
status cell are two separate fields of the state (mirroring the two
separate `Rc<RefCell<_>>` cells created at src/lib.rs lines 141 and 247);
every open, error, and close event writes the same value to both cells in
the same step, the two cells agree at construction, one step preserves
their agreement, and after any event sequence run from a fresh client they
are equal — so `PollingClient::status()` equals the inner client's
status. -/
theorem C10_status_cells_mirror (url : String) :
    (PollingClient.init url).pollStatus = (PollingClient.init url).innerStatus
  ∧ (∀ ps : PollingClientState,
      PollingClient.step ps TransportEvent.opened
        = some { ps with innerStatus := ConnectionStatus.Connected
                         pollStatus := ConnectionStatus.Connected }
    ∧ PollingClient.step ps TransportEvent.errored
        = some { ps with innerStatus := ConnectionStatus.Error
                         pollStatus := ConnectionStatus.Error }
    ∧ PollingClient.step ps TransportEvent.closed
        = some { ps with innerStatus := ConnectionStatus.Disconnected
                         pollStatus := ConnectionStatus.Disconnected })
  ∧ (∀ (ps ps' : PollingClientState) (e : TransportEvent),
      PollingClient.step ps e = some ps' →
      ps.pollStatus = ps.innerStatus → ps'.pollStatus = ps'.innerStatus)
  ∧ (∀ (es : List TransportEvent) (ps' : PollingClientState),
      PollingClient.run (PollingClient.init url) es = some ps' →
      PollingClient.status ps' = ps'.innerStatus) := by
  refine ⟨rfl, fun ps => ⟨rfl, rfl, rfl⟩,
    fun ps ps' e hstep h => step_preserves_mirror ps ps' e hstep h,
    fun es ps' hrun => run_preserves_mirror es (PollingClient.init url)
      ps' hrun rfl⟩

/-- C10 witness: after an open followed by an error on a fresh client, the
two status cells agree. -/
theorem C10_status_cells_mirror_witness :
    PollingClient.status
        { url := "ws://a", innerStatus := ConnectionStatus.Error
          pollStatus := ConnectionStatus.Error, data := [] }
      = ConnectionStatus.Error :=
  ((C10_status_cells_mirror "ws://a").2.2.2
      [TransportEvent.opened, TransportEvent.errored]
      { url := "ws://a", innerStatus := ConnectionStatus.Error
        pollStatus := ConnectionStatus.Error, data := [] } rfl).trans rfl

end WasmSockets
